import Mathlib

/-!
Shallow embedding of `workloadidentityfed.go` (package azidentity-static-source).

The Go file defines one credential type with a configuration-resolving
constructor `NewWorkloadIdentityFederationCredential` and an assertion cache
`getAssertion` guarded by a `sync.RWMutex` in a double-checked-locking
pattern.  We embed the state as a plain structure, Go `time.Time` values as
integers counting nanoseconds (the zero value of `time.Time` is mapped to `0`;
every value `time.Now()` can return is strictly positive, since the zero time
is year 1), and the two `time.Now()` samples taken at lines 109 and 115 of the
source as two explicit integer arguments.  The external collaborator
`azidentity.NewClientAssertionCredential` is not part of this repository; the
constructor is parametrised by a function standing for it, whose error is
propagated verbatim as in the source.
-/

namespace AzIdentityStatic

/-- Go `time.Second` in nanoseconds. -/
def second : Int := 1000000000

/-- Go `time.Minute` in nanoseconds. -/
def minute : Int := 60 * second

/-- Environment variable name constant `azureClientID` (source line 20). -/
def azureClientID : String := "AZURE_CLIENT_ID"

/-- Environment variable name constant `azureTenantID` (source line 21). -/
def azureTenantID : String := "AZURE_TENANT_ID"

/-- Environment variable name constant `azureFederatedTokentoken` (source line 22). -/
def azureFederatedTokentoken : String := "AZURE_FEDERATED_TOKEN"

/-- The fields of `golang.org/x/oauth2.Token` used by the source: `AccessToken`
and `Expiry`.  Go's zero value for the struct is `⟨"", 0⟩`. -/
structure Token where
  accessToken : String
  expiry : Int
deriving Repr, DecidableEq

/-- Go zero value of `oauth2.Token`. -/
def Token.zero : Token := ⟨"", 0⟩

/-- The errors the Go file can return.  The three configuration errors are the
package-level `errors.New` values of lines 26–28; `collaborator` stands for an
error propagated verbatim from `azidentity.NewClientAssertionCredential`
(line 92–94), which is external to this repository. -/
inductive GoError where
  | clientIDNotSpecified
  | tokenNotSpecified
  | tenantIDNotSpecified
  | collaborator (msg : String)
deriving Repr, DecidableEq

/-- The mutable state of `WorkloadIdentityFederationCredential` (source lines
32–38).  The `cred` field (the external collaborator handle) and the `mtx`
field are not data: the mutex is modelled by the fact that every operation on
the state is a whole, serialised state transformer. -/
structure WorkloadIdentityFederationCredential where
  assertion : String
  token : Token
  expires : Int
deriving Repr, DecidableEq

/-- The option fields of `WorkloadIdentityFederationCredentialOptions` that the
source file itself reads (lines 41–59).  `ClientOptions`,
`AdditionallyAllowedTenants` and `DisableInstanceDiscovery` are passed through
unread to the external collaborator and carry no logic in this file, so they
are omitted from the embedding. -/
structure WorkloadIdentityFederationCredentialOptions where
  clientID : String := ""
  tenantID : String := ""
  federatedToken : Token := Token.zero
deriving Repr, DecidableEq

/-- An environment, as seen through Go `os.LookupEnv`: `none` means the
variable is unset, `some v` means it is set to `v` (possibly empty). -/
def Env : Type := String → Option String

/-- Source lines 68–73: the client ID is the option value when non-empty,
otherwise the looked-up `AZURE_CLIENT_ID` (accepted even when set to the empty
string), otherwise the `errorClientIDNotSpecified` error. -/
def resolveClientID (options : WorkloadIdentityFederationCredentialOptions)
    (env : Env) : Except GoError String :=
  if options.clientID = "" then
    match env azureClientID with
    | some v => Except.ok v
    | none => Except.error GoError.clientIDNotSpecified
  else Except.ok options.clientID

/-- Source lines 74–79: the federated token starts from the option value; when
its `AccessToken` is empty, the access token is re-read from
`AZURE_FEDERATED_TOKEN` (the other field of the option token, its `Expiry`, is
kept).  An unset variable or one set to the empty string yields the
`errorTokenNotSpecified` error (`!ok || token.AccessToken == ""`). -/
def resolveFederatedToken (options : WorkloadIdentityFederationCredentialOptions)
    (env : Env) : Except GoError Token :=
  if options.federatedToken.accessToken = "" then
    match env azureFederatedTokentoken with
    | some v =>
        if v = "" then Except.error GoError.tokenNotSpecified
        else Except.ok { options.federatedToken with accessToken := v }
    | none => Except.error GoError.tokenNotSpecified
  else Except.ok options.federatedToken

/-- Source lines 80–85: like the client ID, with `AZURE_TENANT_ID` and the
`errorTenantIDNotSpecified` error. -/
def resolveTenantID (options : WorkloadIdentityFederationCredentialOptions)
    (env : Env) : Except GoError String :=
  if options.tenantID = "" then
    match env azureTenantID with
    | some v => Except.ok v
    | none => Except.error GoError.tenantIDNotSpecified
  else Except.ok options.tenantID

/-- Source lines 63–99.  A `nil` options pointer is replaced by the zero
options value (lines 64–66); the three fields are resolved in source order
(client ID, federated token, tenant ID); then the external collaborator
constructor is called with `(tenantID, clientID)` and its error, if any, is
propagated verbatim (lines 92–95).  On success the returned state carries the
resolved token and the zero values of `assertion` and `expires` (line 86). -/
def NewWorkloadIdentityFederationCredential
    (optionsPtr : Option WorkloadIdentityFederationCredentialOptions)
    (env : Env)
    (newClientAssertionCredential : String → String → Except GoError Unit) :
    Except GoError WorkloadIdentityFederationCredential :=
  let options := match optionsPtr with
    | none => {}
    | some o => o
  match resolveClientID options env with
  | Except.error e => Except.error e
  | Except.ok clientID =>
    match resolveFederatedToken options env with
    | Except.error e => Except.error e
    | Except.ok token =>
      match resolveTenantID options env with
      | Except.error e => Except.error e
      | Except.ok tenantID =>
        match newClientAssertionCredential tenantID clientID with
        | Except.error e => Except.error e
        | Except.ok _ => Except.ok { assertion := "", token := token, expires := 0 }

/-- The environment of spec scenario 1: the three variables set to `"abc"`,
`"def"` and `"tok1"`, everything else unset. -/
def envScenario1 : Env := fun n =>
  if n = azureClientID then some "abc"
  else if n = azureTenantID then some "def"
  else if n = azureFederatedTokentoken then some "tok1"
  else none

/-- Source lines 107–124, the double-checked lazy refresh, as a serialised
state transformer.  `t1` is the `time.Now()` sample of line 109 (read under the
shared lock), `t2` the sample of line 115 (the double check under the
exclusive lock); `Time.Before` is a strict comparison.  When both checks see
an expired cache the assertion is recomputed from the stored token and the
cache expiry is set to the token expiry minus ten minutes (lines 116–118).
The returned error is the literal `nil` of line 123, embedded as `none`. -/
def getAssertion (w : WorkloadIdentityFederationCredential) (t1 t2 : Int) :
    (String × Option GoError) × WorkloadIdentityFederationCredential :=
  if w.expires < t1 then
    if w.expires < t2 then
      ((w.token.accessToken, none),
       { w with assertion := w.token.accessToken,
                expires := w.token.expiry - 10 * minute })
    else ((w.assertion, none), w)
  else ((w.assertion, none), w)

/-- Sequential repetition of `getAssertion`: one call per element of `ts`,
each element giving the two `time.Now()` samples of that call, threading the
credential state. -/
def runGetAssertion (w : WorkloadIdentityFederationCredential)
    (ts : List (Int × Int)) :
    List (String × Option GoError) × WorkloadIdentityFederationCredential :=
  match ts with
  | [] => ([], w)
  | (t1, t2) :: rest =>
    let r := getAssertion w t1 t2
    let rec' := runGetAssertion r.2 rest
    (r.1 :: rec'.1, rec'.2)

/-- The write-lock critical section of `getAssertion` (source lines 112–119)
together with the return of line 123, for one caller whose earlier read-lock
check already saw an expired cache: `t` is the `time.Now()` sample of the
double check at line 115.  The boolean records whether the recomputation body
(lines 116–118) executed. -/
def writerStep (w : WorkloadIdentityFederationCredential) (t : Int) :
    (String × WorkloadIdentityFederationCredential) × Bool :=
  if w.expires < t then
    ((w.token.accessToken,
      { w with assertion := w.token.accessToken,
               expires := w.token.expiry - 10 * minute }), true)
  else ((w.assertion, w), false)

/-- N concurrent callers that all raced past the read-lock check of line 109
while the cache was expired: the `sync.RWMutex` serialises their write-lock
sections, which therefore execute one after the other, in lock-acquisition
order, with double-check times `ts`.  Returns every caller's result string,
the final state, and how many times the recomputation body ran. -/
def runWriters (w : WorkloadIdentityFederationCredential) (ts : List Int) :
    List String × WorkloadIdentityFederationCredential × Nat :=
  match ts with
  | [] => ([], w, 0)
  | t :: rest =>
    let s := writerStep w t
    let r := runWriters s.1.2 rest
    (s.1.1 :: r.1, r.2.1, (if s.2 then 1 else 0) + r.2.2)

/-- Claim C1: whenever `getAssertion` executes the refresh branch — both
expiry checks, under the shared and then the exclusive lock, see an expired
cache — the cache expiry is set to exactly the token expiry minus ten
minutes, and every other execution path leaves it unchanged.  `getAssertion`
is the only operation that assigns `expires`; the constructor merely leaves it
at the zero value of line 86. -/
theorem c1_expiry_margin (w : WorkloadIdentityFederationCredential) (t1 t2 : Int) :
    (getAssertion w t1 t2).2.expires =
      if w.expires < t1 ∧ w.expires < t2 then w.token.expiry - 10 * minute
      else w.expires := by
  by_cases h1 : w.expires < t1 <;> by_cases h2 : w.expires < t2 <;>
    simp [getAssertion, h1, h2]

/-- Claim C2: while the current time is strictly before the cached expiry,
any number of repeated calls to `getAssertion` each return the identical
cached assertion string (with a `nil` error) and leave the whole credential
state unchanged. -/
theorem c2_idempotent_fast_path (w : WorkloadIdentityFederationCredential)
    (ts : List (Int × Int)) (h : ∀ p ∈ ts, p.1 < w.expires) :
    runGetAssertion w ts = (ts.map fun _ => (w.assertion, none), w) := by
  induction ts with
  | nil => rfl
  | cons p rest ih =>
    obtain ⟨t1, t2⟩ := p
    have h1 : ¬ w.expires < t1 :=
      not_lt.mpr (le_of_lt (h (t1, t2) (List.mem_cons_self _ _)))
    simp [runGetAssertion, getAssertion, h1,
      ih fun q hq => h q (List.mem_cons_of_mem _ hq)]

/-- Witness for `c2_idempotent_fast_path` at a concrete state and two calls. -/
theorem c2_idempotent_fast_path_witness :
    runGetAssertion ⟨"cached", ⟨"tok", 0⟩, 100⟩ [(1, 1), (2, 3)] =
      ([("cached", none), ("cached", none)], ⟨"cached", ⟨"tok", 0⟩, 100⟩) :=
  c2_idempotent_fast_path ⟨"cached", ⟨"tok", 0⟩, 100⟩ [(1, 1), (2, 3)] (by decide)

/-- Claim C3: for each configuration field, a non-empty explicit option value
wins over the environment (the result does not depend on `env` at all); a
field supplied by neither source fails with exactly that field's error (for
the federated token, an environment value equal to the empty string counts as
not supplied); the fields are checked in source order — client ID, federated
token, tenant ID — so an empty environment gives `errorClientIDNotSpecified`,
and an environment carrying only the client ID gives
`errorTokenNotSpecified`. -/
theorem c3_config_precedence_and_order :
    (∀ options env, options.clientID ≠ "" →
        resolveClientID options env = Except.ok options.clientID)
  ∧ (∀ options env, options.federatedToken.accessToken ≠ "" →
        resolveFederatedToken options env = Except.ok options.federatedToken)
  ∧ (∀ options env, options.tenantID ≠ "" →
        resolveTenantID options env = Except.ok options.tenantID)
  ∧ (∀ options env, options.clientID = "" → env azureClientID = none →
        resolveClientID options env = Except.error GoError.clientIDNotSpecified)
  ∧ (∀ options env, options.federatedToken.accessToken = "" →
        (env azureFederatedTokentoken = none ∨ env azureFederatedTokentoken = some "") →
        resolveFederatedToken options env = Except.error GoError.tokenNotSpecified)
  ∧ (∀ options env, options.tenantID = "" → env azureTenantID = none →
        resolveTenantID options env = Except.error GoError.tenantIDNotSpecified)
  ∧ (∀ collab, NewWorkloadIdentityFederationCredential none (fun _ => none) collab
        = Except.error GoError.clientIDNotSpecified)
  ∧ (∀ collab c, NewWorkloadIdentityFederationCredential none
        (fun n => if n = azureClientID then some c else none) collab
        = Except.error GoError.tokenNotSpecified) := by
  refine ⟨?_, ?_, ?_, ?_, ?_, ?_, ?_, ?_⟩
  · intro options env h
    simp [resolveClientID, h]
  · intro options env h
    simp [resolveFederatedToken, h]
  · intro options env h
    simp [resolveTenantID, h]
  · intro options env h he
    simp [resolveClientID, h, he]
  · intro options env h he
    rcases he with he | he <;> simp [resolveFederatedToken, h, he]
  · intro options env h he
    simp [resolveTenantID, h, he]
  · intro collab
    rfl
  · intro collab c
    rfl

/-- Witness for `c3_config_precedence_and_order` at concrete options and
environments. -/
theorem c3_config_precedence_and_order_witness :
    resolveClientID { clientID := "optC" } envScenario1 = Except.ok "optC"
  ∧ resolveFederatedToken { federatedToken := ⟨"optT", 5⟩ } envScenario1
      = Except.ok ⟨"optT", 5⟩
  ∧ resolveTenantID { tenantID := "optTen" } envScenario1 = Except.ok "optTen"
  ∧ resolveClientID {} (fun _ => none) = Except.error GoError.clientIDNotSpecified
  ∧ resolveFederatedToken {} (fun _ => none) = Except.error GoError.tokenNotSpecified
  ∧ resolveTenantID {} (fun _ => none) = Except.error GoError.tenantIDNotSpecified
  ∧ NewWorkloadIdentityFederationCredential none (fun _ => none) (fun _ _ => Except.ok ())
      = Except.error GoError.clientIDNotSpecified
  ∧ NewWorkloadIdentityFederationCredential none
      (fun n => if n = azureClientID then some "abc" else none) (fun _ _ => Except.ok ())
      = Except.error GoError.tokenNotSpecified :=
  ⟨c3_config_precedence_and_order.1 { clientID := "optC" } envScenario1 (by decide),
   c3_config_precedence_and_order.2.1 { federatedToken := ⟨"optT", 5⟩ } envScenario1 (by decide),
   c3_config_precedence_and_order.2.2.1 { tenantID := "optTen" } envScenario1 (by decide),
   c3_config_precedence_and_order.2.2.2.1 {} (fun _ => none) rfl rfl,
   c3_config_precedence_and_order.2.2.2.2.1 {} (fun _ => none) rfl (Or.inl rfl),
   c3_config_precedence_and_order.2.2.2.2.2.1 {} (fun _ => none) rfl rfl,
   c3_config_precedence_and_order.2.2.2.2.2.2.1 (fun _ _ => Except.ok ()),
   c3_config_precedence_and_order.2.2.2.2.2.2.2 (fun _ _ => Except.ok ()) "abc"⟩

/-- Counterexample to claim C4: with all three environment variables set to
non-empty values and an options struct whose federated access token is the
empty string, construction does NOT fail with `errorTokenNotSpecified` — the
empty explicit value falls back to the environment (source line 76) and
construction succeeds with the environment's token value. -/
theorem c4_counterexample :
    NewWorkloadIdentityFederationCredential
        (some { federatedToken := Token.zero }) envScenario1 (fun _ _ => Except.ok ())
      = Except.ok ⟨"", ⟨"tok1", 0⟩, 0⟩ := rfl

/-- Claim C4 amended: with the three environment variables set (token value
non-empty) and an options struct whose federated access token is empty,
construction succeeds whenever the collaborator constructor does, and the
credential holds the environment's token value (keeping the option token's
expiry); `errorTokenNotSpecified` arises only when the environment variable is
also unset or empty. -/
theorem c4_empty_option_falls_back (env : Env) (c t v : String) (e : Int)
    (collab : String → String → Except GoError Unit)
    (hc : env azureClientID = some c)
    (ht : env azureTenantID = some t)
    (hv : env azureFederatedTokentoken = some v) (hne : v ≠ "")
    (hcollab : collab t c = Except.ok ()) :
    NewWorkloadIdentityFederationCredential
        (some { federatedToken := ⟨"", e⟩ }) env collab
      = Except.ok ⟨"", ⟨v, e⟩, 0⟩ := by
  simp [NewWorkloadIdentityFederationCredential, resolveClientID,
    resolveFederatedToken, resolveTenantID, hc, ht, hv, hne, hcollab]

/-- Witness for `c4_empty_option_falls_back` on scenario 1's environment. -/
theorem c4_empty_option_falls_back_witness :
    NewWorkloadIdentityFederationCredential
        (some { federatedToken := ⟨"", 7⟩ }) envScenario1 (fun _ _ => Except.ok ())
      = Except.ok ⟨"", ⟨"tok1", 7⟩, 0⟩ :=
  c4_empty_option_falls_back envScenario1 "abc" "def" "tok1" 7 (fun _ _ => Except.ok ())
    rfl rfl rfl (by decide) rfl

/-- Claim C5: `getAssertion` returns a `nil` error on every input and cache
state (source line 123 is the only return statement). -/
theorem c5_never_fails (w : WorkloadIdentityFederationCredential) (t1 t2 : Int) :
    (getAssertion w t1 t2).1.2 = none := by
  by_cases h1 : w.expires < t1 <;> by_cases h2 : w.expires < t2 <;>
    simp [getAssertion, h1, h2]

/-- Claim C10: the empty-string check on environment fallbacks is asymmetric.
`AZURE_FEDERATED_TOKEN` set to the empty string (with no overriding option)
fails with `errorTokenNotSpecified` (source line 76 re-checks the value), but
`AZURE_CLIENT_ID` or `AZURE_TENANT_ID` set to the empty string is accepted
as-is (lines 70 and 82 only test presence), and construction proceeds with no
configuration error. -/
theorem c10_empty_env_asymmetry :
    (∀ env : Env, env azureFederatedTokentoken = some "" →
        resolveFederatedToken {} env = Except.error GoError.tokenNotSpecified)
  ∧ (∀ env : Env, env azureClientID = some "" →
        resolveClientID {} env = Except.ok "")
  ∧ (∀ env : Env, env azureTenantID = some "" →
        resolveTenantID {} env = Except.ok "")
  ∧ (∀ (env : Env) (t v : String) (collab : String → String → Except GoError Unit),
        env azureClientID = some "" → env azureTenantID = some t →
        env azureFederatedTokentoken = some v → v ≠ "" →
        collab t "" = Except.ok () →
        NewWorkloadIdentityFederationCredential none env collab
          = Except.ok ⟨"", ⟨v, 0⟩, 0⟩) := by
  refine ⟨?_, ?_, ?_, ?_⟩
  · intro env he
    simp [resolveFederatedToken, Token.zero, he]
  · intro env he
    simp [resolveClientID, he]
  · intro env he
    simp [resolveTenantID, he]
  · intro env t v collab hc ht hv hne hcollab
    simp [NewWorkloadIdentityFederationCredential, resolveClientID,
      resolveFederatedToken, resolveTenantID, Token.zero, hc, ht, hv, hne, hcollab]

/-- Witness for `c10_empty_env_asymmetry`: an environment whose client and
tenant IDs are empty strings and whose token is `"tok1"`. -/
theorem c10_empty_env_asymmetry_witness :
    resolveFederatedToken {} (fun _ => some "") = Except.error GoError.tokenNotSpecified
  ∧ resolveClientID {}
      (fun n => if n = azureFederatedTokentoken then some "tok1" else some "")
      = Except.ok ""
  ∧ resolveTenantID {}
      (fun n => if n = azureFederatedTokentoken then some "tok1" else some "")
      = Except.ok ""
  ∧ NewWorkloadIdentityFederationCredential none
      (fun n => if n = azureFederatedTokentoken then some "tok1" else some "")
      (fun _ _ => Except.ok ())
      = Except.ok ⟨"", ⟨"tok1", 0⟩, 0⟩ :=
  ⟨c10_empty_env_asymmetry.1 (fun _ => some "") rfl,
   c10_empty_env_asymmetry.2.1
     (fun n => if n = azureFederatedTokentoken then some "tok1" else some "") rfl,
   c10_empty_env_asymmetry.2.2.1
     (fun n => if n = azureFederatedTokentoken then some "tok1" else some "") rfl,
   c10_empty_env_asymmetry.2.2.2
     (fun n => if n = azureFederatedTokentoken then some "tok1" else some "")
     "" "tok1" (fun _ _ => Except.ok ()) rfl rfl rfl (by decide) rfl⟩

/-- Helper: a credential whose token expiry is at most ten minutes after the
zero time and whose cache expiry is not after the zero time refreshes on every
call made at positive times, each call returning the stored token's access
token with a `nil` error. -/
theorem runGetAssertion_always_refresh (w : WorkloadIdentityFederationCredential)
    (ts : List (Int × Int)) (hw : w.token.expiry ≤ 10 * minute) (he : w.expires ≤ 0)
    (h : ∀ p ∈ ts, 0 < p.1 ∧ 0 < p.2) :
    (runGetAssertion w ts).1 = ts.map fun _ => (w.token.accessToken, none) := by
  induction ts generalizing w with
  | nil => rfl
  | cons p rest ih =>
    obtain ⟨t1, t2⟩ := p
    have hp := h (t1, t2) (List.mem_cons_self _ _)
    have h1 : w.expires < t1 := lt_of_le_of_lt he hp.1
    have h2 : w.expires < t2 := lt_of_le_of_lt he hp.2
    have he' : w.token.expiry - 10 * minute ≤ 0 := sub_nonpos.mpr hw
    have hrest := ih { w with assertion := w.token.accessToken,
                              expires := w.token.expiry - 10 * minute }
      hw he' (fun q hq => h q (List.mem_cons_of_mem _ hq))
    simp [runGetAssertion, getAssertion, h1, h2, hrest]

/-- Claim C7: scenario 1 — environment `AZURE_CLIENT_ID=abc`,
`AZURE_TENANT_ID=def`, `AZURE_FEDERATED_TOKEN=tok1`, constructor called with a
nil options pointer.  Construction succeeds (whenever the external
collaborator constructor succeeds on tenant `"def"` and client `"abc"`), and
every subsequent call to `getAssertion` — at times after the zero time, as
every value `time.Now()` can produce is — returns `"tok1"`. -/
theorem c7_scenario1 (collab : String → String → Except GoError Unit)
    (hcollab : collab "def" "abc" = Except.ok ())
    (ts : List (Int × Int)) (h : ∀ p ∈ ts, 0 < p.1 ∧ 0 < p.2) :
    NewWorkloadIdentityFederationCredential none envScenario1 collab
        = Except.ok ⟨"", ⟨"tok1", 0⟩, 0⟩
  ∧ (runGetAssertion ⟨"", ⟨"tok1", 0⟩, 0⟩ ts).1 = ts.map fun _ => ("tok1", none) := by
  constructor
  · simp [NewWorkloadIdentityFederationCredential, resolveClientID,
      resolveFederatedToken, resolveTenantID, Token.zero, envScenario1,
      azureClientID, azureTenantID, azureFederatedTokentoken, hcollab]
  · exact runGetAssertion_always_refresh ⟨"", ⟨"tok1", 0⟩, 0⟩ ts (by decide) (by decide) h

/-- Witness for `c7_scenario1` with an always-succeeding collaborator and two
calls at concrete positive times. -/
theorem c7_scenario1_witness :
    NewWorkloadIdentityFederationCredential none envScenario1 (fun _ _ => Except.ok ())
        = Except.ok ⟨"", ⟨"tok1", 0⟩, 0⟩
  ∧ (runGetAssertion ⟨"", ⟨"tok1", 0⟩, 0⟩ [(5, 6), (7, 8)]).1
      = [("tok1", none), ("tok1", none)] :=
  c7_scenario1 (fun _ _ => Except.ok ()) rfl [(5, 6), (7, 8)] (by decide)

/-- Counterexample to claim C6: for a token expiring at `t0 + 10 minutes +
1 second` with `t0 = 0`, the refresh at `t0` sets the cache expiry to exactly
1 second, and the expiry test `expires.Before(now)` of line 109 is still FALSE
at `now = t0 + 1 second` — `Before` is strict, so the cache is not yet expired
at the boundary instant, contradicting the claimed "expired at t0 plus
1 second". -/
theorem c6_counterexample :
    (getAssertion ⟨"", ⟨"tok", 10 * minute + second⟩, -1⟩ 0 0).2.expires = second
  ∧ ¬ (getAssertion ⟨"", ⟨"tok", 10 * minute + second⟩, -1⟩ 0 0).2.expires < second := by
  decide

/-- Claim C6 amended: for a token expiring at `t0 + 10 minutes + 1 second`,
after a refresh at `t0` the cache expiry is exactly `t0 + 1 second`, so the
cache is valid when read at `t0` and still valid when read at exactly
`t0 + 1 second`; it is expired precisely at read times strictly after
`t0 + 1 second`. -/
theorem c6_margin_boundary (w : WorkloadIdentityFederationCredential) (t0 t : Int)
    (hexp : w.token.expiry = t0 + 10 * minute + second)
    (hstale : w.expires < t0) :
    (getAssertion w t0 t0).2.expires = t0 + second
  ∧ ((getAssertion w t0 t0).2.expires < t ↔ t0 + second < t) := by
  have hset : (getAssertion w t0 t0).2.expires = t0 + second := by
    simp [getAssertion, hstale, hexp]
    ring
  exact ⟨hset, by rw [hset]⟩

/-- Witness for `c6_margin_boundary` at `t0 = 0`: the refreshed expiry is
1 second and the cache is expired at 2 seconds. -/
theorem c6_margin_boundary_witness :
    (getAssertion ⟨"", ⟨"tok", 10 * minute + second⟩, -1⟩ 0 0).2.expires = 0 + second
  ∧ ((getAssertion ⟨"", ⟨"tok", 10 * minute + second⟩, -1⟩ 0 0).2.expires < second + second
      ↔ 0 + second < second + second) :=
  c6_margin_boundary ⟨"", ⟨"tok", 10 * minute + second⟩, -1⟩ 0 (second + second)
    (by decide) (by decide)

/-- Counterexample to claim C9's parenthetical premise: an options struct may
carry an empty access token together with a non-zero expiry, in which case the
token VALUE is taken from `AZURE_FEDERATED_TOKEN` (source line 76 assigns only
`AccessToken`) while the resolved expiry is the option's non-zero one — so a
token whose value comes from the environment does not always have the
zero-value expiry. -/
theorem c9_counterexample :
    resolveFederatedToken { federatedToken := ⟨"", 12345⟩ } envScenario1
        = Except.ok ⟨"tok1", 12345⟩
  ∧ (⟨"tok1", 12345⟩ : Token).expiry ≠ 0 :=
  ⟨rfl, by decide⟩

/-- Claim C9 amended: when the options leave the federated token at its zero
value (in particular with a nil options pointer) and the token value comes
from `AZURE_FEDERATED_TOKEN`, the resolved expiry is the zero value; and every
credential whose token expiry is the zero value has, at any state with cache
expiry not after the zero time (true at construction and preserved forever),
an expired cache at every positive read time: each call takes the write-lock
refresh branch, leaves the cache expiry at zero minus ten minutes, and returns
the token's access token — the fast path is never taken. -/
theorem c9_zero_expiry_always_refreshes :
    (∀ (env : Env) (v : String), env azureFederatedTokentoken = some v → v ≠ "" →
        resolveFederatedToken {} env = Except.ok ⟨v, 0⟩)
  ∧ (∀ (w : WorkloadIdentityFederationCredential) (t1 t2 : Int),
        w.token.expiry = 0 → w.expires ≤ 0 → 0 < t1 → 0 < t2 →
        w.expires < t1
      ∧ (getAssertion w t1 t2).2.expires = -(10 * minute)
      ∧ (getAssertion w t1 t2).1.1 = w.token.accessToken) := by
  constructor
  · intro env v hv hne
    simp [resolveFederatedToken, Token.zero, hv, hne]
  · intro w t1 t2 hexp he h1 h2
    have h1' : w.expires < t1 := lt_of_le_of_lt he h1
    have h2' : w.expires < t2 := lt_of_le_of_lt he h2
    refine ⟨h1', ?_, ?_⟩ <;> simp [getAssertion, h1', h2', hexp]

/-- Witness for `c9_zero_expiry_always_refreshes`: the scenario-1 environment
and the freshly constructed credential read at times 5 and 6. -/
theorem c9_zero_expiry_always_refreshes_witness :
    resolveFederatedToken {} envScenario1 = Except.ok ⟨"tok1", 0⟩
  ∧ ((⟨"", ⟨"tok1", 0⟩, 0⟩ : WorkloadIdentityFederationCredential).expires < 5
      ∧ (getAssertion ⟨"", ⟨"tok1", 0⟩, 0⟩ 5 6).2.expires = -(10 * minute)
      ∧ (getAssertion ⟨"", ⟨"tok1", 0⟩, 0⟩ 5 6).1.1 = "tok1") :=
  ⟨c9_zero_expiry_always_refreshes.1 envScenario1 "tok1" rfl (by decide),
   c9_zero_expiry_always_refreshes.2 ⟨"", ⟨"tok1", 0⟩, 0⟩ 5 6 rfl (by decide)
     (by decide) (by decide)⟩

/-- Helper: a writer state whose assertion already equals its token's access
token yields that access token as every caller's result, whether or not the
individual writers recompute. -/
theorem runWriters_results_stable (w : WorkloadIdentityFederationCredential)
    (ts : List Int) (hw : w.assertion = w.token.accessToken) :
    (runWriters w ts).1 = ts.map fun _ => w.token.accessToken := by
  induction ts generalizing w with
  | nil => rfl
  | cons t rest ih =>
    by_cases h : w.expires < t
    · have key := ih ⟨w.token.accessToken, w.token, w.token.expiry - 10 * minute⟩ rfl
      simp [runWriters, writerStep, h, key]
    · simp [runWriters, writerStep, h, hw, ih w hw]

/-- Helper: writers whose double checks all see a non-expired cache never run
the recomputation body and leave the state unchanged. -/
theorem runWriters_no_refresh (w : WorkloadIdentityFederationCredential)
    (ts : List Int) (h : ∀ t ∈ ts, ¬ w.expires < t) :
    (runWriters w ts).2 = (w, 0) := by
  induction ts with
  | nil => rfl
  | cons t rest ih =>
    have ht := h t (List.mem_cons_self _ _)
    simp [runWriters, writerStep, ht, ih fun q hq => h q (List.mem_cons_of_mem _ hq)]

/-- Counterexample to claim C8: two concurrent callers race past the read-lock
check of an expired cache holding the zero-expiry environment token; the first
writer's refresh leaves the cache expiry at zero minus ten minutes, still in
the past, so the second writer's double check sees an expired cache again and
the recomputation body executes twice, not exactly once. -/
theorem c8_counterexample :
    (runWriters ⟨"", ⟨"tok1", 0⟩, 0⟩ [1, 2]).2.2 = 2 := by
  decide

/-- Claim C8 amended: when N concurrent callers race past the read-lock check
of an expired cache, the serialised write-lock sections recompute exactly once
— provided the refreshed expiry (token expiry minus ten minutes) is not before
any later caller's double-check time — and every caller receives the same
string, the token's access token.  (A token already within ten minutes of
expiry instead makes every writer recompute, as the counterexample shows; the
absence of blocking for non-expired readers is a property of the lock runtime,
outside this model.) -/
theorem c8_single_refresh (w : WorkloadIdentityFederationCredential)
    (t1 : Int) (ts : List Int) (h1 : w.expires < t1)
    (h2 : ∀ t ∈ ts, t ≤ w.token.expiry - 10 * minute) :
    (runWriters w (t1 :: ts)).2.2 = 1
  ∧ (runWriters w (t1 :: ts)).1 = (t1 :: ts).map fun _ => w.token.accessToken := by
  have hcount := runWriters_no_refresh
    ⟨w.token.accessToken, w.token, w.token.expiry - 10 * minute⟩ ts
    (fun t ht => not_lt.mpr (h2 t ht))
  have hres := runWriters_results_stable
    ⟨w.token.accessToken, w.token, w.token.expiry - 10 * minute⟩ ts rfl
  constructor
  · simp [runWriters, writerStep, h1, hcount]
  · simp [runWriters, writerStep, h1, hres]

/-- Witness for `c8_single_refresh`: three callers, a token expiring 1000
minutes after the zero time, double checks at times 1, 2 and 3. -/
theorem c8_single_refresh_witness :
    (runWriters ⟨"", ⟨"tok1", 1000 * minute⟩, 0⟩ [1, 2, 3]).2.2 = 1
  ∧ (runWriters ⟨"", ⟨"tok1", 1000 * minute⟩, 0⟩ [1, 2, 3]).1
      = ["tok1", "tok1", "tok1"] :=
  c8_single_refresh ⟨"", ⟨"tok1", 1000 * minute⟩, 0⟩ 1 [2, 3] (by decide) (by decide)

end AzIdentityStatic
